import Mathlib

/-!
Verification development for the UML-Ontology-Pipeline repository.

The repository contains three successive versions of the same pipeline:
- `ontologyGenerator/models/ollama.py` (namespace `Orig`): bare chat call,
  indexing `response['choices'][0]['message']['content']`;
- `ontologyGenerator/models/ollamaTest.py` (namespace `Func`): function
  `generate_ontology_with_ollama` with manual benchmarking plus the free
  functions `save_benchmark_results` and `print_metrics`;
- `ontologyGenerator_V1/models/ollamaTest.py` (namespace `V1`): the
  class-based refactor `OntologyGenerator` / `BenchmarkMetrics` /
  `BenchmarkLogger`.

Python values handed around as JSON-like dicts are embedded as the `Json`
inductive below (Python dicts keep insertion order, so an ordered
association list is a faithful model).  Numbers are embedded as `ℚ`
(Python floats are modelled by exact rationals; `round(x, n)` is modelled
as exact decimal round-half-to-even, Python's tie-breaking rule).
Wall-clock readings (`time.time`, `time.perf_counter`) and
`datetime.now().isoformat()` are nondeterministic inputs, so they are
oracle parameters of the embedded functions, as is the outcome of the
`ollama.chat` network call.  Exception control flow is embedded with
`Except`; the exact message text of CPython-internal exceptions
(TypeError and friends) is abstracted by fixed placeholder strings, which
no claim inspects.
-/

/-- JSON-like Python values: dicts are insertion-ordered association lists. -/
inductive Json where
  | null
  | bool (b : Bool)
  | num (q : ℚ)
  | str (s : String)
  | arr (elems : List Json)
  | obj (fields : List (String × Json))

/-- A Python exception, reduced to what the sources consume:
`type(e).__name__` and `str(e)`. -/
structure PyError where
  ty : String
  msg : String
deriving DecidableEq

/-- First-match lookup in an ordered association list; dict keys are unique
in all dicts the sources build, so this is Python dict lookup. -/
def lookupField : List (String × Json) → String → Option Json
  | [], _ => none
  | (k, v) :: rest, key => if k = key then some v else lookupField rest key

/-- Key lookup in a dict (`d.get(k)` / `k in d` support); `none` when the
value is not a dict or the key is missing. -/
def Json.lookup? : Json → String → Option Json
  | .obj fs, k => lookupField fs k
  | _, _ => none

/-- Python subscription `d[k]` with a string key: `KeyError` on a missing
dict key (whose `str` is the quoted key), `TypeError` on non-dict values. -/
def Json.pyIndex (j : Json) (k : String) : Except PyError Json :=
  match j with
  | .obj fs =>
    match lookupField fs k with
    | some v => Except.ok v
    | none => Except.error ⟨"KeyError", "\x27" ++ k ++ "\x27"⟩
  | _ => Except.error ⟨"TypeError", "object is not subscriptable"⟩

/-- Python subscription `xs[i]` with an integer index (only index 0 is used
by the sources): `IndexError` past the end of a list, `KeyError` on a dict
(these dicts never carry integer keys), `TypeError` otherwise.  String
indexing, which Python would allow, occurs on no reachable path of the
sources and is folded into the `TypeError` case. -/
def Json.pyIndexNat (j : Json) (i : ℕ) : Except PyError Json :=
  match j with
  | .arr xs =>
    match xs.get? i with
    | some v => Except.ok v
    | none => Except.error ⟨"IndexError", "list index out of range"⟩
  | .obj _ => Except.error ⟨"KeyError", toString i⟩
  | _ => Except.error ⟨"TypeError", "object is not subscriptable"⟩

/-- The whitespace set stripped by Python's `str.strip()` for the ASCII
range (Python also strips some rarer Unicode space characters; no claim
depends on those). -/
def isPySpace (c : Char) : Bool :=
  c = ' ' || c = '\t' || c = '\n' || c = '\x0d' || c = '\x0b' || c = '\x0c'

/-- Python `s.strip()`: drop leading and trailing whitespace. -/
def pyStrip (s : String) : String :=
  String.mk (((s.data.dropWhile isPySpace).reverse.dropWhile isPySpace).reverse)

/-- Python `len(s)` on text: the number of code points. -/
def pyLen (s : String) : ℕ := s.length

/-- Python `len(s.encode('utf-8'))`: the UTF-8 byte length. -/
def utf8Len (s : String) : ℕ := s.utf8ByteSize

/-- Round-half-to-even to an integer, the tie-breaking rule of Python's
built-in `round`. -/
def roundHalfEven (q : ℚ) : ℤ :=
  let f : ℤ := ⌊q⌋
  let frac : ℚ := q - (f : ℚ)
  if frac < 1/2 then f
  else if 1/2 < frac then f + 1
  else if f % 2 = 0 then f else f + 1

/-- Python `round(q, ndigits)` as exact decimal rounding. -/
def pyRound (ndigits : ℕ) (q : ℚ) : ℚ :=
  (roundHalfEven (q * (10:ℚ) ^ ndigits) : ℚ) / (10:ℚ) ^ ndigits

example : pyRound 2 (26 / 2) = 13 := by
  norm_num [pyRound, roundHalfEven, Int.floor_eq_iff]
example : pyRound 3 (1 / 1024) = 1 / 1000 := by
  norm_num [pyRound, roundHalfEven, Int.floor_eq_iff]
example : pyStrip "  a b\n" = "a b" := by decide
example : Json.pyIndex (Json.obj [("message", Json.str "x")]) "choices"
    = Except.error ⟨"KeyError", "\x27choices\x27"⟩ := rfl

/-- The state of a benchmark-results file: missing, holding text that
parses to a JSON value, or holding text `json.load` rejects.  Raw disk
faults are outside the embedding; the file system is a pure state. -/
inductive FileState where
  | absent
  | json (value : Json)
  | invalid

namespace V1

/-! ### `ontologyGenerator_V1/models/ollamaTest.py` — the class-based version -/

/-- The dataclass `BenchmarkMetrics` (`ollamaTest.py` lines 17-34).
`Optional` fields are `Option`; the dataclass defaults are `none`. -/
structure BenchmarkMetrics where
  model : String
  timestamp : String
  input_size_chars : ℕ
  input_size_kb : ℚ
  generation_time_seconds : ℚ
  output_size_chars : ℕ
  output_size_kb : ℚ
  success : Bool
  error : Option String := none
  tokens_generated : Option ℚ := none
  tokens_per_second : Option ℚ := none

/-- Helper for `to_dict`: an optional trailing field, omitted when `None`. -/
def optField (k : String) (f : α → Json) : Option α → List (String × Json)
  | none => []
  | some v => [(k, f v)]

/-- `BenchmarkMetrics.to_dict`: `asdict(self)` in dataclass field order,
with `None` values excluded (lines 32-34). -/
def BenchmarkMetrics.to_dict (m : BenchmarkMetrics) : List (String × Json) :=
  [("model", Json.str m.model),
   ("timestamp", Json.str m.timestamp),
   ("input_size_chars", Json.num m.input_size_chars),
   ("input_size_kb", Json.num m.input_size_kb),
   ("generation_time_seconds", Json.num m.generation_time_seconds),
   ("output_size_chars", Json.num m.output_size_chars),
   ("output_size_kb", Json.num m.output_size_kb),
   ("success", Json.bool m.success)]
  ++ optField "error" Json.str m.error
  ++ optField "tokens_generated" Json.num m.tokens_generated
  ++ optField "tokens_per_second" Json.num m.tokens_per_second

namespace OntologyGenerator

/-- `OntologyGenerator._calculate_size` (lines 66-71): character count and
KB size (`len(content.encode('utf-8')) / 1024`). -/
def calculate_size (content : String) : ℕ × ℚ :=
  (pyLen content, (utf8Len content : ℚ) / 1024)

/-- `OntologyGenerator._create_prompt` (lines 73-75): the
`PROMPT_TEMPLATE.format(uml=uml)` instantiation.  `str.format` here is
plain interpolation of the single `\x7buml\x7d` placeholder. -/
def create_prompt (uml : String) : String :=
  "You are an expert in converting UML diagrams into OWL ontologies.\n" ++
  "Given the following UML diagram in XMI format, generate a corresponding OWL ontology in Turtle format.\n" ++
  "\nRequirements:\n" ++
  "1. Use proper OWL/RDFS namespaces (owl:, rdfs:, rdf:)\n" ++
  "2. Convert classes with owl:Class\n" ++
  "3. Preserve inheritance relationships with rdfs:subClassOf\n" ++
  "4. Define properties as owl:DatatypeProperty or owl:ObjectProperty\n" ++
  "5. Include cardinality constraints using owl:Restriction\n" ++
  "6. Maintain all associations and their multiplicities\n" ++
  "\nUML XMI:\n" ++ uml ++
  "\n\nRespond ONLY with the OWL ontology in Turtle format, without explanations."

/-- `OntologyGenerator._extract_metrics` (lines 77-105).  `datetime.now()`
is the oracle parameter `timestamp`.  `response.get('eval_count')` is
numeric on every reachable path (the Ollama payload carries an integer
count), so token extraction is modelled as the numeric lookup; the Python
truthiness test `if tokens and duration > 0` makes `tokens = 0` and
`tokens = None` both skip the throughput computation. -/
def extract_metrics (model uml ontology : String) (duration : ℚ)
    (response : Option Json) (error : Option String) (timestamp : String) :
    BenchmarkMetrics :=
  let inputSize := calculate_size uml
  let outputSize := calculate_size ontology
  let tokens : Option ℚ :=
    match response with
    | none => none
    | some r =>
      match r.lookup? "eval_count" with
      | some (Json.num q) => some q
      | _ => none
  let tokens_per_sec : Option ℚ :=
    match tokens with
    | some t => if t ≠ 0 ∧ 0 < duration then some (pyRound 2 (t / duration)) else none
    | none => none
  { model := model
    timestamp := timestamp
    input_size_chars := inputSize.1
    input_size_kb := pyRound 3 inputSize.2
    generation_time_seconds := pyRound 3 duration
    output_size_chars := outputSize.1
    output_size_kb := pyRound 3 outputSize.2
    success := error.isNone
    error := error
    tokens_generated := tokens
    tokens_per_second := tokens_per_sec }

/-- Outcome of one `OntologyGenerator.generate` call. -/
inductive GenResult where
  | valueError (msg : String)
  | runtimeError (msg : String)
  | ontology (content : String)
  | ontologyWithMetrics (content : String) (metrics : BenchmarkMetrics)

/-- One run of `generate`, together with the prompt handed to
`ollama.chat` (`none` when the chat call was never made). -/
structure GenRun where
  result : GenResult
  chatPrompt : Option String

/-- The `try` body of `generate` (lines 136-143): the chat call, then
`response['message']['content'].strip()`.  A non-string `content` would
fail at `.strip()` with an `AttributeError`, caught by the generic
`except Exception` clause. -/
def tryBody (chat : Except PyError Json) : Except PyError (String × Json) := do
  let response ← chat
  let messageVal ← response.pyIndex "message"
  let contentVal ← messageVal.pyIndex "content"
  match contentVal with
  | Json.str s => pure (pyStrip s, response)
  | _ => throw ⟨"AttributeError", "object has no attribute strip"⟩

/-- The message of the `RuntimeError` raised by the two `except` clauses
(lines 145-150): `KeyError` gets the malformed-response wording, every
other exception the generic API wording. -/
def exceptMsg (e : PyError) : String :=
  if e.ty = "KeyError" then "Unexpected response format from Ollama: " ++ e.msg
  else "Ollama API error: " ++ e.ty ++ ": " ++ e.msg

/-- `OntologyGenerator.generate` (lines 107-160).  `duration` is the
oracle value of `time.perf_counter() - start_time` read in the `finally`
block; `chat` is the oracle outcome of `ollama.chat`.  Python semantics
note: a `return` inside `finally` swallows an in-flight exception, so
with `benchmark = True` the `RuntimeError` raised by the `except` clauses
is suppressed and `(ontology_content, metrics)` is returned instead. -/
def generate (model uml : String) (benchmark : Bool)
    (chat : Except PyError Json) (duration : ℚ) (timestamp : String) :
    GenRun :=
  if uml = "" ∨ pyStrip uml = "" then
    { result := GenResult.valueError "UML input cannot be empty", chatPrompt := none }
  else
    let prompt := create_prompt uml
    match tryBody chat with
    | Except.ok (content, response) =>
      if benchmark then
        { result := GenResult.ontologyWithMetrics content
            (extract_metrics model uml content duration (some response) none timestamp)
          chatPrompt := some prompt }
      else
        { result := GenResult.ontology content, chatPrompt := some prompt }
    | Except.error e =>
      let errorMsg := exceptMsg e
      if benchmark then
        { result := GenResult.ontologyWithMetrics ""
            (extract_metrics model uml "" duration none (some errorMsg) timestamp)
          chatPrompt := some prompt }
      else
        { result := GenResult.runtimeError errorMsg, chatPrompt := some prompt }

/-- Projection used by claim statements: the metrics of a benchmarked run. -/
def GenResult.metricsOf? : GenResult → Option BenchmarkMetrics
  | GenResult.ontologyWithMetrics _ m => some m
  | _ => none

/-- Projection used by claim statements: the returned ontology text. -/
def GenResult.contentOf? : GenResult → Option String
  | GenResult.ontology c => some c
  | GenResult.ontologyWithMetrics c _ => some c
  | _ => none

end OntologyGenerator

namespace BenchmarkLogger

/-- `BenchmarkLogger.save` (lines 175-204).  Loads the existing list (a
missing file means `[]`), appends `metrics.to_dict()`, writes through a
temporary file and renames.  Any exception inside the `try` is re-raised
as `IOError`: a parse failure from `json.load`, or the `AttributeError`
from `results.append` when the file held a non-list JSON value.  The
exact embedded CPython exception texts are abstracted to fixed strings. -/
def save (m : BenchmarkMetrics) : FileState → Except String FileState
  | FileState.absent =>
    Except.ok (FileState.json (Json.arr [Json.obj m.to_dict]))
  | FileState.json (Json.arr xs) =>
    Except.ok (FileState.json (Json.arr (xs ++ [Json.obj m.to_dict])))
  | FileState.json _ =>
    Except.error "Failed to save benchmark results: AttributeError"
  | FileState.invalid =>
    Except.error "Failed to save benchmark results: JSONDecodeError"

end BenchmarkLogger

/-- A sequence of `BenchmarkLogger.save` calls, stopping at the first
raised `IOError` — the harness for the sequential-append claim. -/
def saveAll : List BenchmarkMetrics → FileState → Except String FileState
  | [], fs => Except.ok fs
  | m :: ms, fs =>
    match BenchmarkLogger.save m fs with
    | Except.ok next => saveAll ms next
    | Except.error e => Except.error e

end V1

namespace Func

/-! ### `ontologyGenerator/models/ollamaTest.py` — the functional version -/

/-- Outcome of one `generate_ontology_with_ollama` call.  The function
catches every exception itself, so a call always returns: either the bare
ontology text (`benchmark=False`) or a `(text, metrics-dict)` pair. -/
inductive FuncResult where
  | ontology (content : String)
  | withMetrics (content : String) (metrics : List (String × Json))

/-- One run, together with the prompt handed to `ollama.chat` (the call
is unconditional in this version). -/
structure FuncRun where
  result : FuncResult
  chatPrompt : Option String

/-- Projection used by claim statements: the metrics dict of a run. -/
def FuncResult.metricsOf? : FuncResult → Option (List (String × Json))
  | FuncResult.withMetrics _ m => some m
  | _ => none

/-- Projection used by claim statements: the returned ontology text. -/
def FuncResult.contentOf : FuncResult → String
  | FuncResult.ontology c => c
  | FuncResult.withMetrics c _ => c

/-- Python `d[k] = v`: replace the value in place when the key exists,
append the pair otherwise (dicts keep insertion order). -/
def dictSet (d : List (String × Json)) (k : String) (v : Json) :
    List (String × Json) :=
  if (lookupField d k).isSome then
    d.map (fun kv => if kv.1 = k then (k, v) else kv)
  else d ++ [(k, v)]

/-- Python `d.update(kvs)`: assign the pairs left to right. -/
def dictUpdate (d : List (String × Json)) :
    List (String × Json) → List (String × Json)
  | [] => d
  | (k, v) :: rest => dictUpdate (dictSet d k v) rest

/-- The dict built at lines 22-27 before the `try` block. -/
def metrics0 (model timestamp uml : String) : List (String × Json) :=
  [("model", Json.str model),
   ("timestamp", Json.str timestamp),
   ("input_size_chars", Json.num (pyLen uml)),
   ("input_size_kb", Json.num ((utf8Len uml : ℚ) / 1024))]

/-- The f-string prompt of lines 29-36. -/
def promptFor (uml : String) : String :=
  "You are an expert in converting UML diagrams into OWL ontologies.\n" ++
  "Given the following UML diagram XMI, generate a corresponding OWL ontology in Turtle format.\n" ++
  "\nUML XMI:\n" ++ uml ++
  "\n\nRespond ONLY with the OWL ontology in Turtle format, without any additional explanations or JSON wrapping.\n"

/-- Chat call plus `ontology_content = response['message']['content']`
(lines 42-51).  The content is a string on every reachable path; a
non-string value would raise from `len(ontology_content)` a few lines
later, folded here into the same `except`-bound error. -/
def tryExtract (chat : Except PyError Json) : Except PyError (String × Json) := do
  let response ← chat
  let messageVal ← response.pyIndex "message"
  let contentVal ← messageVal.pyIndex "content"
  match contentVal with
  | Json.str s => pure (s, response)
  | _ => throw ⟨"TypeError", "object has no len"⟩

/-- The `except Exception` branch of lines 74-88: print the error, and
with `benchmark=True` overwrite the failure keys on whatever `metrics`
held when the exception struck and return `("", metrics)`; with
`benchmark=False` return `""`.  Nothing is re-raised. -/
def exceptBranch (metrics : List (String × Json)) (e : PyError)
    (benchmark : Bool) : FuncResult :=
  if benchmark then
    FuncResult.withMetrics "" (dictUpdate metrics
      [("generation_time_seconds", Json.num 0),
       ("output_size_chars", Json.num 0),
       ("output_size_kb", Json.num 0),
       ("success", Json.bool false),
       ("error", Json.str e.msg)])
  else FuncResult.ontology ""

/-- `generate_ontology_with_ollama` (lines 9-88).  `startTime` and
`endTime` are the oracle readings of `time.time()` around the chat call;
`timestamp` is `datetime.now().isoformat()`; `chat` is the oracle outcome
of `ollama.chat`.  There is no input validation in this version.  When
`eval_count` is present, `tokens_generated` is assigned before
`tokens_per_second` is computed, so a `ZeroDivisionError` (zero measured
duration) or a `TypeError` (non-numeric count) lands in the `except`
branch with `tokens_generated` already in the dict. -/
def generate_ontology_with_ollama (uml model : String) (benchmark : Bool)
    (chat : Except PyError Json) (startTime endTime : ℚ)
    (timestamp : String) : FuncRun :=
  let metrics := metrics0 model timestamp uml
  let prompt := promptFor uml
  let dur := endTime - startTime
  match tryExtract chat with
  | Except.error e => { result := exceptBranch metrics e benchmark, chatPrompt := some prompt }
  | Except.ok (content, response) =>
    if benchmark then
      let m1 := dictUpdate metrics
        [("generation_time_seconds", Json.num (pyRound 3 dur)),
         ("output_size_chars", Json.num (pyLen content)),
         ("output_size_kb", Json.num ((utf8Len content : ℚ) / 1024)),
         ("success", Json.bool true),
         ("error", Json.null)]
      match response.lookup? "eval_count" with
      | none => { result := FuncResult.withMetrics content m1, chatPrompt := some prompt }
      | some (Json.num ec) =>
        let m2 := dictSet m1 "tokens_generated" (Json.num ec)
        if dur = 0 then
          { result := exceptBranch m2 ⟨"ZeroDivisionError", "float division by zero"⟩ benchmark
            chatPrompt := some prompt }
        else
          { result := FuncResult.withMetrics content
              (dictSet m2 "tokens_per_second" (Json.num (pyRound 2 (ec / dur))))
            chatPrompt := some prompt }
      | some v =>
        let m2 := dictSet m1 "tokens_generated" v
        { result := exceptBranch m2 ⟨"TypeError", "unsupported operand type"⟩ benchmark
          chatPrompt := some prompt }
    else { result := FuncResult.ontology content, chatPrompt := some prompt }

/-- `save_benchmark_results` (lines 91-116).  The inner `try` turns a
missing file into `[]`; every other exception — a `json.load` parse
failure, or `results.append` on a non-list value — falls through to the
outer `except`, which only prints and returns normally.  The returned
flag records whether that error print happened (i.e. the record was
dropped). -/
def save_benchmark_results (metrics : Json) : FileState → FileState × Bool
  | FileState.absent => (FileState.json (Json.arr [metrics]), false)
  | FileState.json (Json.arr xs) => (FileState.json (Json.arr (xs ++ [metrics])), false)
  | FileState.json v => (FileState.json v, true)
  | FileState.invalid => (FileState.invalid, true)

/-- A sequence of `save_benchmark_results` calls; the flag records
whether any call printed an error. -/
def saveAll : List Json → FileState → FileState × Bool
  | [], fs => (fs, false)
  | m :: ms, fs =>
    let step := save_benchmark_results m fs
    let rest := saveAll ms step.1
    (rest.1, step.2 || rest.2)

end Func

namespace Orig

/-! ### `ontologyGenerator/models/ollama.py` — the first version -/

/-- The f-string prompt of lines 9-23 (the stray docstring text sits
inside the literal in the source; its exact wording is never consulted). -/
def promptFor (uml : String) : String :=
  "You are an expert in converting UML diagrams into OWL ontologies.\n" ++
  "    Given the following UML diagram XMI, generate a corresponding OWL ontology in Turtle format.\n" ++
  "\n    UML XMI:\n    " ++ uml ++
  "\n    \n    Respond only with the OWL ontology in Turtle format, without any additional explanations.\n" ++
  "\n    Args:\n        uml (str): The UML diagram in XMI format.\n" ++
  "        model (str): The Ollama model to use for generation.\n" ++
  "\n    Respond ONLY with the OWL ontology in Turtle format in a JSON file:\n    \n    "

/-- One run of the first version: the returned value and the prompt sent
(the chat call is unconditional). -/
structure OrigRun where
  result : Json
  chatPrompt : String

/-- `generate_ontology_with_ollama` (lines 7-29): return
`response['choices'][0]['message']['content']`; on any exception print
and return `""`. -/
def generate_ontology_with_ollama (uml model : String)
    (chat : Except PyError Json) : OrigRun :=
  let prompt := promptFor uml
  let attempt : Except PyError Json := do
    let response ← chat
    let choices ← response.pyIndex "choices"
    let first ← choices.pyIndexNat 0
    let messageVal ← first.pyIndex "message"
    messageVal.pyIndex "content"
  match attempt with
  | Except.ok v => { result := v, chatPrompt := prompt }
  | Except.error _ => { result := Json.str "", chatPrompt := prompt }

end Orig

/-! ### Shared harness definitions and lemmas for the claims -/

/-- A chat response in the shape produced by the later versions: a direct
`message`/`content` field and no `choices` key. -/
def laterReply (s : String) : Json :=
  Json.obj [("message", Json.obj [("content", Json.str s)])]

/-- A later-shape chat response that also carries an `eval_count`. -/
def laterReplyTokens (s : String) (ec : ℚ) : Json :=
  Json.obj [("message", Json.obj [("content", Json.str s)]), ("eval_count", Json.num ec)]

/-- Sequential class-based saves onto a parsed array append in order. -/
theorem V1.saveAll_arr_append (ms : List V1.BenchmarkMetrics) (xs : List Json) :
    V1.saveAll ms (FileState.json (Json.arr xs))
      = Except.ok (FileState.json (Json.arr
          (xs ++ ms.map (fun r => Json.obj r.to_dict)))) := by
  induction ms generalizing xs with
  | nil => simp [V1.saveAll]
  | cons m ms ih =>
    rw [V1.saveAll]
    show V1.saveAll ms (FileState.json (Json.arr (xs ++ [Json.obj m.to_dict]))) = _
    rw [ih]
    simp

/-- Sequential functional saves onto a parsed array append in order. -/
theorem Func.saveAll_arr_concat (ms : List Json) (xs : List Json) :
    Func.saveAll ms (FileState.json (Json.arr xs))
      = (FileState.json (Json.arr (xs ++ ms)), false) := by
  induction ms generalizing xs with
  | nil => simp [Func.saveAll]
  | cons m ms ih =>
    rw [Func.saveAll]
    show (_, _) = _
    rw [Func.save_benchmark_results]
    simp only [ih]
    simp

/-! ### The claims -/

/-- C1: starting from a non-existent log file, N sequential save calls
leave a JSON array of exactly N records in call order, and a save against
a pre-existing file holding a list of records appends the new record at
the end with every pre-existing record unchanged — for the class-based
`BenchmarkLogger.save` (which writes `metrics.to_dict()`) and the
functional `save_benchmark_results` (which writes the dict it was given)
alike. -/
theorem C1_save_appends_in_order :
    (∀ (m : V1.BenchmarkMetrics) (ms : List V1.BenchmarkMetrics),
      V1.saveAll (m :: ms) FileState.absent
        = Except.ok (FileState.json (Json.arr
            ((m :: ms).map (fun r => Json.obj r.to_dict)))))
    ∧ (∀ (m : V1.BenchmarkMetrics) (xs : List Json),
      V1.BenchmarkLogger.save m (FileState.json (Json.arr xs))
        = Except.ok (FileState.json (Json.arr (xs ++ [Json.obj m.to_dict]))))
    ∧ (∀ (m : Json) (ms : List Json),
      Func.saveAll (m :: ms) FileState.absent
        = (FileState.json (Json.arr (m :: ms)), false))
    ∧ (∀ (m : Json) (xs : List Json),
      Func.save_benchmark_results m (FileState.json (Json.arr xs))
        = (FileState.json (Json.arr (xs ++ [m])), false)) := by
  refine ⟨fun m ms => ?_, fun m xs => rfl, fun m ms => ?_, fun m xs => rfl⟩
  · rw [V1.saveAll]
    show V1.saveAll ms (FileState.json (Json.arr [Json.obj m.to_dict])) = _
    rw [V1.saveAll_arr_append]
    simp
  · rw [Func.saveAll]
    show (_, _) = _
    rw [Func.save_benchmark_results]
    simp only [Func.saveAll_arr_concat]
    simp

/-- C2 counterexample: on a file whose contents fail to parse, the
functional `save_benchmark_results` returns normally — it merely prints
an error (flag `true`) and leaves the file unchanged, discarding the
record — contradicting the claim that every non-file-not-found failure is
surfaced to the caller and that a save never returns normally while
discarding the record. -/
theorem C2_counterexample :
    Func.save_benchmark_results (Json.str "record") FileState.invalid
      = (FileState.invalid, true) := rfl

/-- C2 amended: the class-based `BenchmarkLogger.save` behaves as
claimed — a missing file is treated as the empty list and the save
succeeds, while a parse failure (or a parseable non-list, which breaks
`results.append`) raises `IOError` and the record is never silently
dropped.  The functional `save_benchmark_results`, however, catches every
failure, prints, and returns normally with the record discarded. -/
theorem C2_amended :
    (∀ m : V1.BenchmarkMetrics,
      V1.BenchmarkLogger.save m FileState.absent
        = Except.ok (FileState.json (Json.arr [Json.obj m.to_dict])))
    ∧ (∀ m : V1.BenchmarkMetrics,
      V1.BenchmarkLogger.save m FileState.invalid
        = Except.error "Failed to save benchmark results: JSONDecodeError")
    ∧ (∀ (m : V1.BenchmarkMetrics) (fields : List (String × Json)),
      V1.BenchmarkLogger.save m (FileState.json (Json.obj fields))
        = Except.error "Failed to save benchmark results: AttributeError")
    ∧ (∀ r : Json,
      Func.save_benchmark_results r FileState.absent
        = (FileState.json (Json.arr [r]), false))
    ∧ (∀ r : Json,
      Func.save_benchmark_results r FileState.invalid
        = (FileState.invalid, true)) :=
  ⟨fun _ => rfl, fun _ => rfl, fun _ _ => rfl, fun _ => rfl, fun _ => rfl⟩

/-- C9: the first version indexes `response['choices'][0]['message']['content']`;
on every response in the later versions' shape (a direct `message`/`content`
field, no `choices` key) the `'choices'` lookup raises `KeyError`, the
`except` clause prints, and the function returns the empty string — while
the later functional version extracts the message content `s` from the
very same response. -/
theorem C9_choices_shape_mismatch (uml model ts s : String) (st en : ℚ) :
    (Orig.generate_ontology_with_ollama uml model
        (Except.ok (laterReply s))).result = Json.str ""
    ∧ (Func.generate_ontology_with_ollama uml model false
        (Except.ok (laterReply s)) st en ts).result
      = Func.FuncResult.ontology s :=
  ⟨rfl, rfl⟩

/-- C10: in the class-based version a `return` inside `finally` swallows
the in-flight `RuntimeError`, so `generate` with `benchmark=True` never
propagates the chat-call failure: the caller receives the pair of the
empty string and a failed metrics record; with `benchmark=False` the
`RuntimeError` propagates. -/
theorem C10_finally_swallows_runtime_error (model uml ts : String)
    (e : PyError) (dur : ℚ) (h : ¬(uml = "" ∨ pyStrip uml = "")) :
    (V1.OntologyGenerator.generate model uml true (Except.error e) dur ts).result
      = V1.OntologyGenerator.GenResult.ontologyWithMetrics ""
          (V1.OntologyGenerator.extract_metrics model uml "" dur none
            (some (V1.OntologyGenerator.exceptMsg e)) ts)
    ∧ (V1.OntologyGenerator.extract_metrics model uml "" dur none
        (some (V1.OntologyGenerator.exceptMsg e)) ts).success = false
    ∧ (V1.OntologyGenerator.generate model uml false (Except.error e) dur ts).result
      = V1.OntologyGenerator.GenResult.runtimeError (V1.OntologyGenerator.exceptMsg e) := by
  have htb : V1.OntologyGenerator.tryBody (Except.error e) = Except.error e := rfl
  refine ⟨?_, rfl, ?_⟩
  · rw [V1.OntologyGenerator.generate, if_neg h]
    simp only [htb]
    simp
  · rw [V1.OntologyGenerator.generate, if_neg h]
    simp only [htb]
    simp

/-- C10 witness: a concrete failing chat call with a non-empty UML input. -/
theorem C10_witness :
    ¬(("<m/>" : String) = "" ∨ pyStrip "<m/>" = "")
    ∧ ((V1.OntologyGenerator.generate "m" "<m/>" true
          (Except.error ⟨"ConnectionError", "boom"⟩) 1 "ts").result
        = V1.OntologyGenerator.GenResult.ontologyWithMetrics ""
            (V1.OntologyGenerator.extract_metrics "m" "<m/>" "" 1 none
              (some (V1.OntologyGenerator.exceptMsg ⟨"ConnectionError", "boom"⟩)) "ts")
      ∧ (V1.OntologyGenerator.extract_metrics "m" "<m/>" "" 1 none
          (some (V1.OntologyGenerator.exceptMsg ⟨"ConnectionError", "boom"⟩)) "ts").success = false
      ∧ (V1.OntologyGenerator.generate "m" "<m/>" false
          (Except.error ⟨"ConnectionError", "boom"⟩) 1 "ts").result
        = V1.OntologyGenerator.GenResult.runtimeError
            (V1.OntologyGenerator.exceptMsg ⟨"ConnectionError", "boom"⟩)) :=
  ⟨by decide, C10_finally_swallows_runtime_error "m" "<m/>" "ts"
    ⟨"ConnectionError", "boom"⟩ 1 (by decide)⟩

/-- The functional version performs the chat call unconditionally: every
run records the prompt that was sent, whatever the input and outcome. -/
theorem Func.chatPrompt_eq (uml model ts : String) (b : Bool)
    (chat : Except PyError Json) (st en : ℚ) :
    (Func.generate_ontology_with_ollama uml model b chat st en ts).chatPrompt
      = some (Func.promptFor uml) := by
  rw [Func.generate_ontology_with_ollama]
  repeat' split
  all_goals rfl

/-- Both `except` wordings of the class-based `generate` carry a non-empty
prefix, so the recorded error string is never empty. -/
theorem V1.exceptMsg_ne_empty (e : PyError) :
    V1.OntologyGenerator.exceptMsg e ≠ "" := by
  rw [V1.OntologyGenerator.exceptMsg]
  split <;> simp [String.ext_iff]

/-- C3 counterexample: the functional version has no input validation —
called with the empty UML string it still issues the chat call (a prompt
is recorded) and returns a normal benchmarked result instead of failing
with a validation error. -/
theorem C3_counterexample :
    (Func.generate_ontology_with_ollama "" "llama3.1:8b" true
        (Except.ok (laterReply "onto")) 0 2 "ts").chatPrompt
      = some (Func.promptFor "")
    ∧ (Func.generate_ontology_with_ollama "" "llama3.1:8b" true
        (Except.ok (laterReply "onto")) 0 2 "ts").result.contentOf
      = "onto" :=
  ⟨rfl, rfl⟩

/-- C3 amended: only the class-based version validates its input — for
empty or whitespace-only UML it raises `ValueError` before any chat call
(no prompt is ever sent).  The earlier functional version issues the chat
call regardless, embedding the empty UML in the prompt. -/
theorem C3_empty_input_validation (model uml ts : String) (b : Bool)
    (chat : Except PyError Json) (dur st en : ℚ)
    (h : uml = "" ∨ pyStrip uml = "") :
    V1.OntologyGenerator.generate model uml b chat dur ts
      = { result := V1.OntologyGenerator.GenResult.valueError "UML input cannot be empty",
          chatPrompt := none }
    ∧ (Func.generate_ontology_with_ollama uml model b chat st en ts).chatPrompt
      = some (Func.promptFor uml) := by
  constructor
  · rw [V1.OntologyGenerator.generate, if_pos h]
  · exact Func.chatPrompt_eq uml model ts b chat st en

/-- C3 witness: a whitespace-only UML input. -/
theorem C3_witness :
    ((" " : String) = "" ∨ pyStrip " " = "")
    ∧ (V1.OntologyGenerator.generate "llama3.1:8b" " " true
          (Except.ok (laterReply "x")) 1 "ts"
        = { result := V1.OntologyGenerator.GenResult.valueError "UML input cannot be empty",
            chatPrompt := none }
      ∧ (Func.generate_ontology_with_ollama " " "llama3.1:8b" true
          (Except.ok (laterReply "x")) 0 1 "ts").chatPrompt
        = some (Func.promptFor " ")) :=
  ⟨by decide, C3_empty_input_validation "llama3.1:8b" " " "ts" true
    (Except.ok (laterReply "x")) 1 0 1 (by decide)⟩

/-- C5 counterexample: a successful record of the functional version
carries the `error` key explicitly bound to `null` (`"error": None` at
line 60), so the error field is present on a success — contradicting
"success = true implies the error field is absent". -/
theorem C5_counterexample :
    ((Func.generate_ontology_with_ollama "u" "m" true
        (Except.ok (laterReply "onto")) 0 2 "ts").result.metricsOf?.map
      (fun d => (lookupField d "success", lookupField d "error")))
      = some (some (Json.bool true), some Json.null) :=
  rfl

/-- C5 amended: the class-based version satisfies the invariant as
claimed — a failed record carries a non-empty error string and no token
fields, a successful record omits the error field (`to_dict` drops
`None`s).  The functional version instead stores `error: null` on
success; on a chat-call failure its record has `success: false`, the raw
exception text as `error` (empty exactly when the exception's text is),
and no token fields. -/
theorem C5_success_error_invariant :
    (∀ (model uml ts : String) (b : Bool) (chat : Except PyError Json)
        (dur : ℚ) (c : String) (m : V1.BenchmarkMetrics),
      (V1.OntologyGenerator.generate model uml b chat dur ts).result
          = V1.OntologyGenerator.GenResult.ontologyWithMetrics c m →
      (m.success = false →
        ∃ s, m.error = some s ∧ s ≠ ""
          ∧ m.tokens_generated = none ∧ m.tokens_per_second = none)
      ∧ (m.success = true → m.error = none))
    ∧ (∀ (uml model ts : String) (e : PyError) (st en : ℚ),
      ((Func.generate_ontology_with_ollama uml model true
          (Except.error e) st en ts).result.metricsOf?.map
        (fun d => (lookupField d "success", lookupField d "error",
                   lookupField d "tokens_generated", lookupField d "tokens_per_second")))
        = some (some (Json.bool false), some (Json.str e.msg), none, none))
    ∧ (∀ (uml model ts s : String) (st en : ℚ),
      ((Func.generate_ontology_with_ollama uml model true
          (Except.ok (laterReply s)) st en ts).result.metricsOf?.map
        (fun d => (lookupField d "success", lookupField d "error")))
        = some (some (Json.bool true), some Json.null)) := by
  refine ⟨?_, fun uml model ts e st en => rfl, fun uml model ts s st en => rfl⟩
  intro model uml ts b chat dur c m heq
  rw [V1.OntologyGenerator.generate] at heq
  by_cases hv : uml = "" ∨ pyStrip uml = ""
  · rw [if_pos hv] at heq
    simp at heq
  · rw [if_neg hv] at heq
    cases htb : V1.OntologyGenerator.tryBody chat with
    | ok p =>
      obtain ⟨content, response⟩ := p
      rw [htb] at heq
      cases b with
      | false => simp at heq
      | true =>
        simp at heq
        obtain ⟨-, hm⟩ := heq
        subst hm
        constructor
        · intro hfalse
          simp [V1.OntologyGenerator.extract_metrics] at hfalse
        · intro _
          rfl
    | error e =>
      rw [htb] at heq
      cases b with
      | false => simp at heq
      | true =>
        simp at heq
        obtain ⟨-, hm⟩ := heq
        subst hm
        constructor
        · intro _
          exact ⟨V1.OntologyGenerator.exceptMsg e, rfl, V1.exceptMsg_ne_empty e, rfl, rfl⟩
        · intro htrue
          simp [V1.OntologyGenerator.extract_metrics] at htrue

/-- C5 witness: a concrete failing run of the class-based generator. -/
theorem C5_witness :
    ((V1.OntologyGenerator.generate "m" "u" true
        (Except.error ⟨"ConnectionError", "boom"⟩) 1 "ts").result
      = V1.OntologyGenerator.GenResult.ontologyWithMetrics ""
          (V1.OntologyGenerator.extract_metrics "m" "u" "" 1 none
            (some (V1.OntologyGenerator.exceptMsg ⟨"ConnectionError", "boom"⟩)) "ts"))
    ∧ (((V1.OntologyGenerator.extract_metrics "m" "u" "" 1 none
            (some (V1.OntologyGenerator.exceptMsg ⟨"ConnectionError", "boom"⟩)) "ts").success = false →
        ∃ s, (V1.OntologyGenerator.extract_metrics "m" "u" "" 1 none
            (some (V1.OntologyGenerator.exceptMsg ⟨"ConnectionError", "boom"⟩)) "ts").error = some s
          ∧ s ≠ ""
          ∧ (V1.OntologyGenerator.extract_metrics "m" "u" "" 1 none
              (some (V1.OntologyGenerator.exceptMsg ⟨"ConnectionError", "boom"⟩)) "ts").tokens_generated = none
          ∧ (V1.OntologyGenerator.extract_metrics "m" "u" "" 1 none
              (some (V1.OntologyGenerator.exceptMsg ⟨"ConnectionError", "boom"⟩)) "ts").tokens_per_second = none)
      ∧ ((V1.OntologyGenerator.extract_metrics "m" "u" "" 1 none
            (some (V1.OntologyGenerator.exceptMsg ⟨"ConnectionError", "boom"⟩)) "ts").success = true →
          (V1.OntologyGenerator.extract_metrics "m" "u" "" 1 none
            (some (V1.OntologyGenerator.exceptMsg ⟨"ConnectionError", "boom"⟩)) "ts").error = none)) :=
  ⟨rfl, C5_success_error_invariant.1 "m" "u" "ts" true
    (Except.error ⟨"ConnectionError", "boom"⟩) 1 ""
    (V1.OntologyGenerator.extract_metrics "m" "u" "" 1 none
      (some (V1.OntologyGenerator.exceptMsg ⟨"ConnectionError", "boom"⟩)) "ts") rfl⟩

/-- The throughput field of the class-based metrics is present exactly for
a nonzero token count and positive duration (the Python truthiness test
`if tokens and duration > 0`). -/
theorem tpsPresence (o : Option ℚ) (dur : ℚ) :
    (match o with
      | some t => if t ≠ 0 ∧ 0 < dur then some (pyRound 2 (t / dur)) else none
      | none => none).isSome
      ↔ ∃ t, o = some t ∧ t ≠ 0 ∧ 0 < dur := by
  cases o with
  | none => simp
  | some t =>
    by_cases hc : t ≠ 0 ∧ 0 < dur
    · simp [hc]
    · simp [hc]

/-- C4 counterexample: a class-based run whose response carries
`eval_count = 0` with duration 2 produces a record where
`tokens_generated` is present (value 0) and the duration is positive, yet
`tokens_per_second` is absent — refuting "present iff `tokens_generated`
is present and duration > 0" (Python's `if tokens` treats 0 as falsy). -/
theorem C4_counterexample :
    ((V1.OntologyGenerator.generate "m" "<uml/>" true
        (Except.ok (laterReplyTokens "abc" 0)) 2 "ts").result.metricsOf?.map
      (fun m => (m.tokens_generated, m.tokens_per_second)))
      = some (some 0, none)
    ∧ (0:ℚ) < 2 :=
  ⟨rfl, by norm_num⟩

set_option maxHeartbeats 1000000 in
/-- C4 amended: in the class-based version `tokens_per_second` is present
iff `tokens_generated` is present, nonzero, and the duration is positive,
and then equals `round(tokens/duration, 2)`.  The functional version sets
both token fields whenever `eval_count` is in the response (given a
positive measured duration), with the same rounded quotient, and sets
neither when `eval_count` is missing. -/
theorem C4_tokens_per_second (model uml onto ts s : String) (dur ec st en : ℚ)
    (resp : Option Json) (err : Option String) (hdur : 0 < en - st) :
    ((V1.OntologyGenerator.extract_metrics model uml onto dur resp err ts).tokens_per_second.isSome
      ↔ ∃ t : ℚ,
          (V1.OntologyGenerator.extract_metrics model uml onto dur resp err ts).tokens_generated
            = some t ∧ t ≠ 0 ∧ 0 < dur)
    ∧ (∀ t : ℚ,
      (V1.OntologyGenerator.extract_metrics model uml onto dur resp err ts).tokens_generated
          = some t → t ≠ 0 → 0 < dur →
      (V1.OntologyGenerator.extract_metrics model uml onto dur resp err ts).tokens_per_second
        = some (pyRound 2 (t / dur)))
    ∧ ((Func.generate_ontology_with_ollama uml model true
          (Except.ok (laterReplyTokens s ec)) st en ts).result.metricsOf?.map
        (fun d => (lookupField d "tokens_generated", lookupField d "tokens_per_second")))
      = some (some (Json.num ec), some (Json.num (pyRound 2 (ec / (en - st)))))
    ∧ ((Func.generate_ontology_with_ollama uml model true
          (Except.ok (laterReply s)) st en ts).result.metricsOf?.map
        (fun d => (lookupField d "tokens_generated", lookupField d "tokens_per_second")))
      = some (none, none) := by
  have hne : en - st ≠ 0 := ne_of_gt hdur
  refine ⟨?_, ?_, ?_, rfl⟩
  · show (match (V1.OntologyGenerator.extract_metrics model uml onto dur resp err ts).tokens_generated with
        | some t => if t ≠ 0 ∧ 0 < dur then some (pyRound 2 (t / dur)) else none
        | none => none).isSome ↔ _
    exact tpsPresence _ dur
  · intro t ht h0 hd
    show (match (V1.OntologyGenerator.extract_metrics model uml onto dur resp err ts).tokens_generated with
        | some t => if t ≠ 0 ∧ 0 < dur then some (pyRound 2 (t / dur)) else none
        | none => none) = some (pyRound 2 (t / dur))
    rw [ht]
    simp [h0, hd]
  · rw [Func.generate_ontology_with_ollama]
    rw [show Func.tryExtract (Except.ok (laterReplyTokens s ec))
        = Except.ok (s, laterReplyTokens s ec) from rfl]
    simp only []
    rw [show (laterReplyTokens s ec).lookup? "eval_count" = some (Json.num ec) from rfl]
    simp only []
    rw [if_neg hne, if_pos trivial]
    rfl

/-- C4 witness: the spec's own example — 26 tokens over 2 seconds. -/
theorem C4_witness :
    (0:ℚ) < 2 - 0
    ∧ (((V1.OntologyGenerator.extract_metrics "m" "u" "o" 2
          (some (laterReplyTokens "abc" 26)) none "ts").tokens_per_second.isSome
        ↔ ∃ t : ℚ,
            (V1.OntologyGenerator.extract_metrics "m" "u" "o" 2
              (some (laterReplyTokens "abc" 26)) none "ts").tokens_generated
              = some t ∧ t ≠ 0 ∧ (0:ℚ) < 2)
      ∧ (∀ t : ℚ,
        (V1.OntologyGenerator.extract_metrics "m" "u" "o" 2
            (some (laterReplyTokens "abc" 26)) none "ts").tokens_generated
            = some t → t ≠ 0 → 0 < (2:ℚ) →
        (V1.OntologyGenerator.extract_metrics "m" "u" "o" 2
            (some (laterReplyTokens "abc" 26)) none "ts").tokens_per_second
          = some (pyRound 2 (t / 2)))
      ∧ ((Func.generate_ontology_with_ollama "u" "m" true
            (Except.ok (laterReplyTokens "abc" 26)) 0 2 "ts").result.metricsOf?.map
          (fun d => (lookupField d "tokens_generated", lookupField d "tokens_per_second")))
        = some (some (Json.num 26), some (Json.num (pyRound 2 (26 / (2 - 0)))))
      ∧ ((Func.generate_ontology_with_ollama "u" "m" true
            (Except.ok (laterReply "abc")) 0 2 "ts").result.metricsOf?.map
          (fun d => (lookupField d "tokens_generated", lookupField d "tokens_per_second")))
        = some (none, none)) :=
  ⟨by norm_num, C4_tokens_per_second "m" "u" "o" "ts" "abc" 2 26 0 2
    (some (laterReplyTokens "abc" 26)) none (by norm_num)⟩

/-- C6 counterexample: the class-based version rounds the KB sizes to 3
decimal places (`round(output_kb, 3)` at line 100), so for a reply of one
byte the recorded `output_size_kb` is 0.001, not 1/1024 — a quantization
error of up to 0.0005, far beyond floating rounding. -/
theorem C6_counterexample :
    ((V1.OntologyGenerator.generate "m" "u" true
        (Except.ok (laterReply "a")) 2 "ts").result.metricsOf?.map
      (fun m => m.output_size_kb))
      = some (1 / 1000)
    ∧ ((1:ℚ) / 1000) ≠ (utf8Len "a" : ℚ) / 1024 := by
  constructor
  · rw [show ((V1.OntologyGenerator.generate "m" "u" true
        (Except.ok (laterReply "a")) 2 "ts").result.metricsOf?.map
      (fun m => m.output_size_kb))
      = some (pyRound 3 ((utf8Len "a" : ℚ) / 1024)) from rfl]
    rw [show utf8Len "a" = 1 from rfl]
    norm_num [pyRound, roundHalfEven, Int.floor_eq_iff]
  · rw [show utf8Len "a" = 1 from rfl]
    norm_num

/-- C6 amended: character sizes are the exact code-point counts in both
versions; the KB sizes are UTF-8-byte-length/1024 — exact in the
functional version, rounded to 3 decimal places in the class-based
version, which moreover computes the output sizes over the trimmed reply
(the functional version uses the raw reply). -/
theorem C6_size_derivation (model uml ts s : String) (dur st en : ℚ)
    (h : ¬(uml = "" ∨ pyStrip uml = "")) :
    ((V1.OntologyGenerator.generate model uml true
        (Except.ok (laterReply s)) dur ts).result.metricsOf?.map
      (fun m => (m.output_size_chars, m.output_size_kb,
                 m.input_size_chars, m.input_size_kb)))
      = some (pyLen (pyStrip s), pyRound 3 ((utf8Len (pyStrip s) : ℚ) / 1024),
              pyLen uml, pyRound 3 ((utf8Len uml : ℚ) / 1024))
    ∧ ((Func.generate_ontology_with_ollama uml model true
        (Except.ok (laterReply s)) st en ts).result.metricsOf?.map
      (fun d => (lookupField d "output_size_chars", lookupField d "output_size_kb",
                 lookupField d "input_size_chars", lookupField d "input_size_kb")))
      = some (some (Json.num (pyLen s)), some (Json.num ((utf8Len s : ℚ) / 1024)),
              some (Json.num (pyLen uml)), some (Json.num ((utf8Len uml : ℚ) / 1024))) := by
  constructor
  · rw [V1.OntologyGenerator.generate, if_neg h]
    rfl
  · rfl

/-- C6 witness: a non-empty UML input and a reply with surrounding
whitespace. -/
theorem C6_witness :
    ¬(("<m/>" : String) = "" ∨ pyStrip "<m/>" = "")
    ∧ (((V1.OntologyGenerator.generate "m" "<m/>" true
          (Except.ok (laterReply " t ")) 2 "ts").result.metricsOf?.map
        (fun m => (m.output_size_chars, m.output_size_kb,
                   m.input_size_chars, m.input_size_kb)))
        = some (pyLen (pyStrip " t "), pyRound 3 ((utf8Len (pyStrip " t ") : ℚ) / 1024),
                pyLen "<m/>", pyRound 3 ((utf8Len "<m/>" : ℚ) / 1024))
      ∧ ((Func.generate_ontology_with_ollama "<m/>" "m" true
          (Except.ok (laterReply " t ")) 0 2 "ts").result.metricsOf?.map
        (fun d => (lookupField d "output_size_chars", lookupField d "output_size_kb",
                   lookupField d "input_size_chars", lookupField d "input_size_kb")))
        = some (some (Json.num (pyLen " t ")), some (Json.num ((utf8Len " t " : ℚ) / 1024)),
                some (Json.num (pyLen "<m/>")), some (Json.num ((utf8Len "<m/>" : ℚ) / 1024)))) :=
  ⟨by decide, C6_size_derivation "m" "<m/>" "ts" " t " 2 0 2 (by decide)⟩

/-- C7 counterexample: on a chat failure the functional version records
`generation_time_seconds: 0` (line 80) even though the partial attempt
took 5 seconds of wall clock — the measured duration is not recorded,
contradicting "rather than being zero". -/
theorem C7_counterexample :
    ((Func.generate_ontology_with_ollama "u" "m" true
        (Except.error ⟨"ConnectionError", "boom"⟩) 0 5 "ts").result.metricsOf?.map
      (fun d => lookupField d "generation_time_seconds"))
      = some (some (Json.num 0))
    ∧ (5:ℚ) - 0 ≠ 0 :=
  ⟨rfl, by norm_num⟩

/-- C7 amended: the class-based version measures the partial attempt in
its `finally` block and records `round(duration, 3)` in the failed
record; the earlier functional version produces a failed record but hard
codes its `generation_time_seconds` to 0. -/
theorem C7_failure_duration (model uml ts : String) (e : PyError)
    (dur st en : ℚ) (h : ¬(uml = "" ∨ pyStrip uml = "")) :
    ((V1.OntologyGenerator.generate model uml true
        (Except.error e) dur ts).result.metricsOf?.map
      (fun m => (m.generation_time_seconds, m.success)))
      = some (pyRound 3 dur, false)
    ∧ ((Func.generate_ontology_with_ollama uml model true
        (Except.error e) st en ts).result.metricsOf?.map
      (fun d => (lookupField d "generation_time_seconds", lookupField d "success")))
      = some (some (Json.num 0), some (Json.bool false)) := by
  constructor
  · rw [V1.OntologyGenerator.generate, if_neg h]
    rfl
  · rfl

/-- C7 witness: a concrete transport failure after one second. -/
theorem C7_witness :
    ¬(("<m/>" : String) = "" ∨ pyStrip "<m/>" = "")
    ∧ (((V1.OntologyGenerator.generate "m" "<m/>" true
          (Except.error ⟨"ConnectionError", "boom"⟩) 1 "ts").result.metricsOf?.map
        (fun m => (m.generation_time_seconds, m.success)))
        = some (pyRound 3 1, false)
      ∧ ((Func.generate_ontology_with_ollama "<m/>" "m" true
          (Except.error ⟨"ConnectionError", "boom"⟩) 0 1 "ts").result.metricsOf?.map
        (fun d => (lookupField d "generation_time_seconds", lookupField d "success")))
        = some (some (Json.num 0), some (Json.bool false))) :=
  ⟨by decide, C7_failure_duration "m" "<m/>" "ts" ⟨"ConnectionError", "boom"⟩ 1 0 1 (by decide)⟩

/-- C8 counterexample: the functional version returns the reply verbatim
(`response['message']['content']` at line 51, no `.strip()`), so a reply
with surrounding whitespace comes back untrimmed. -/
theorem C8_counterexample :
    (Func.generate_ontology_with_ollama "u" "m" false
        (Except.ok (laterReply " x ")) 0 1 "ts").result.contentOf = " x "
    ∧ pyStrip " x " = "x"
    ∧ (" x " : String) ≠ "x" :=
  ⟨rfl, by decide, by decide⟩

/-- C8 amended: only the class-based version returns the trimmed reply
text (`.strip()` at line 142); the earlier functional version returns the
raw reply unchanged. -/
theorem C8_trimmed_reply (model uml ts s : String) (dur st en : ℚ) (b : Bool)
    (h : ¬(uml = "" ∨ pyStrip uml = "")) :
    ((V1.OntologyGenerator.generate model uml b
        (Except.ok (laterReply s)) dur ts).result.contentOf?)
      = some (pyStrip s)
    ∧ (Func.generate_ontology_with_ollama uml model b
        (Except.ok (laterReply s)) st en ts).result.contentOf
      = s := by
  constructor
  · rw [V1.OntologyGenerator.generate, if_neg h]
    cases b
    · rfl
    · rfl
  · cases b
    · rfl
    · rfl

/-- C8 witness: a whitespace-wrapped reply to a non-empty UML input. -/
theorem C8_witness :
    ¬(("<m/>" : String) = "" ∨ pyStrip "<m/>" = "")
    ∧ (((V1.OntologyGenerator.generate "m" "<m/>" true
          (Except.ok (laterReply " x ")) 1 "ts").result.contentOf?)
        = some (pyStrip " x ")
      ∧ (Func.generate_ontology_with_ollama "<m/>" "m" true
          (Except.ok (laterReply " x ")) 0 1 "ts").result.contentOf
        = " x ") :=
  ⟨by decide, C8_trimmed_reply "m" "<m/>" "ts" " x " 1 0 1 true (by decide)⟩
